import Mathlib

/-!
Verification of the session/token lifecycle subsystem of the singlebase-js
client SDK, shallowly embedded from `src/AuthClient.ts` and `src/lib.ts`.

Conventions of the embedding:
* JavaScript numbers holding epoch instants are modelled as `Int`
  (all arithmetic involved is exact integer arithmetic).
* A JavaScript field that may be `undefined`, `null` or the empty string
  (all falsy in the source's truthiness tests) is modelled as an `Option`
  with `none` for the falsy cases.
* The asynchronous remote dispatcher is an explicit parameter: each
  embedded operation receives the outcome the dispatcher would produce
  for the single dispatch it can issue, and the functions additionally
  return the number of dispatches actually issued so that claims about
  "no remote call happens" are statable.
-/

namespace Singlebase

/-- Outcome of one `dispatch` call as observed by the client:
`ok data` for a resolved `{ok: true, data}` response, `err` for a resolved
`{ok: false, error}` response, `exn` for a rejected promise / thrown
transport error (caught by the `catch` blocks in the source). -/
inductive DispatchOutcome (α : Type) where
  | ok (data : α)
  | err (msg : String)
  | exn (msg : String)
  deriving Repr, DecidableEq

/-- The token payload (`respData` in `AuthClient.ts`), flattened.
`exp` and `ttl` embed `token_info.exp` and `token_info.ttl`; `rev` embeds
the `_rev` stamp added by `_setAuthData` when writing to storage;
`expires_at`/`created_at` embed the client-computed fields added to the
in-memory copy.  `user_profile` is kept opaque (a string blob). -/
structure TokenRecord where
  id_token : Option String := none
  refresh_token : Option String := none
  exp : Option Int := none
  ttl : Option Int := none
  aud : Option String := none
  user_profile : Option String := none
  rev : Option Int := none
  expires_at : Option Int := none
  created_at : Option Int := none
  deriving Repr, DecidableEq

/-- Margin (in seconds) before token expiry, `EXPIRY_MARGIN` in the source. -/
def EXPIRY_MARGIN : Int := 60

/-- Embeds `AuthClient._isTokenValid` applied to an explicit token:
`currentToken?.id_token && currentToken?.token_info?.exp` must be truthy and
then `(exp * 1000) - (EXPIRY_MARGIN * 1000) > Date.now()` decides validity. -/
def isTokenValid (now : Int) (t : TokenRecord) : Bool :=
  match t.id_token, t.exp with
  | some _, some e => decide (e * 1000 - EXPIRY_MARGIN * 1000 > now)
  | _, _ => false

/-- The mutable fields of `AuthClient` relevant to the session lifecycle,
together with the two external stores it writes through:
`user_profile`/`token` are the two slots of the reactive `_state`,
`cache` is the `token` entry of the persistent storage namespace,
`nonce` is the `nonce` entry of that namespace. -/
structure ClientState where
  user_profile : Option String := none
  token : Option TokenRecord := none
  cache : Option TokenRecord := none
  nonce : Option String := none
  refreshInProgress : Bool := false
  refreshFailed : Bool := false
  retryCount : Nat := 0
  deriving Repr, DecidableEq

/-- Embeds `_clearState`: patches both reactive slots to `null`. -/
def clearState (s : ClientState) : ClientState :=
  { s with user_profile := none, token := none }

/-- Embeds `_purgeCache`: removes the `token` entry from storage. -/
def purgeCache (s : ClientState) : ClientState :=
  { s with cache := none }

/-- Embeds `_setState`: patches the reactive slots from a response record
(`user_profile` from the record's own field, `token` to the record). -/
def setState (d : TokenRecord) (s : ClientState) : ClientState :=
  { s with user_profile := d.user_profile, token := some d }

/-- Embeds `_setAuthData`: the reactive state receives the record extended
with `expires_at = now + ttl * 1000` and `created_at = now`; the storage
receives the record extended with `_rev = now`. -/
def setAuthData (d : TokenRecord) (now : Int) (s : ClientState) : ClientState :=
  let memRecord := { d with
    expires_at := d.ttl.map (fun ttl => now + ttl * 1000),
    created_at := some now }
  let s1 := setState memRecord s
  { s1 with cache := some { d with rev := some now } }

/-- Embeds `_getToken` (which delegates to `_getCachedToken`): the token a
facade operation consumes is read from persistent storage, not from the
reactive state slot. -/
def getToken (s : ClientState) : Option TokenRecord :=
  s.cache

/-- Embeds `_refreshToken`.  Returns the boolean result, the new client
state, and the number of `auth.refresh_token` dispatches issued (0 or 1).
The in-flight guard returns `false` before dispatching; the `finally`
clause always lowers the flag again at return. -/
def refreshToken (refresh_token id_token : Option String)
    (resp : DispatchOutcome TokenRecord) (now : Int)
    (s : ClientState) : Bool × ClientState × Nat :=
  if refresh_token = none ∨ id_token = none then
    (false, s, 0)
  else if s.refreshInProgress then
    (false, s, 0)
  else
    let s1 := { s with refreshInProgress := true }
    match resp with
    | .ok d =>
        let s2 := setAuthData d now s1
        let s3 := { s2 with refreshFailed := false, retryCount := 0 }
        (true, { s3 with refreshInProgress := false }, 1)
    | .err _ =>
        (false, { s1 with refreshFailed := true, refreshInProgress := false }, 1)
    | .exn _ =>
        (false, { s1 with refreshFailed := true, refreshInProgress := false }, 1)

/-- The uniform `{ok, data, error}` result shape produced by
`AuthResultOk` / `AuthResultErr` in `lib.ts`, with the payload opaque. -/
inductive AuthResult (α : Type) where
  | ok (data : α)
  | err (msg : String)
  deriving Repr, DecidableEq

/-- The environment of a token-consuming call: the current wall clock and
the outcome the dispatcher would give to an `auth.refresh_token` dispatch. -/
structure Env where
  now : Int
  refreshResp : DispatchOutcome TokenRecord

/-- Embeds `getIdToken(refresh)`.  Returns the resulting id token, the new
client state, and the number of `_refreshToken` invocations performed.
A valid cached token is answered directly; an invalid one triggers at most
one refresh and, on success, the single recursion with `refresh = false`. -/
def getIdToken (env : Env) : Bool → ClientState → Option String × ClientState × Nat
  | refresh, s =>
    match getToken s with
    | none => (none, s, 0)
    | some t =>
      if isTokenValid env.now t then
        (t.id_token, s, 0)
      else if h : refresh ∧ t.refresh_token ≠ none then
        let r := refreshToken t.refresh_token t.id_token env.refreshResp env.now s
        if r.1 then
          let rec2 := getIdToken env false r.2.1
          (rec2.1, rec2.2.1, 1 + rec2.2.2)
        else
          (none, r.2.1, 1)
      else
        (none, s, 0)
termination_by refresh _ => if refresh then 1 else 0
decreasing_by
  simp_all

/-- Embeds `refreshSession`: requires a cached token exposing both
credentials, runs `_refreshToken`, and on success re-reads via
`getIdToken(false)`. -/
def refreshSession (env : Env) (s : ClientState) : Option String × ClientState :=
  match getToken s with
  | none => (none, s)
  | some t =>
    if t.refresh_token ≠ none ∧ t.id_token ≠ none then
      let r := refreshToken t.refresh_token t.id_token env.refreshResp env.now s
      if r.1 then
        let g := getIdToken env false r.2.1
        (g.1, g.2.1)
      else
        (none, r.2.1)
    else
      (none, s)

/-- Embeds `signUpWithPassword`: state is cleared before dispatching, the
dispatcher result is reshaped, and the `finally` clause clears the reactive
state again and purges the persistent cache on every path.  The last
component counts `auth.signup` dispatches. -/
def signUpWithPassword (resp : DispatchOutcome TokenRecord)
    (s : ClientState) : AuthResult TokenRecord × ClientState × Nat :=
  let s1 := clearState s
  let result : AuthResult TokenRecord :=
    match resp with
    | .ok d => .ok d
    | .err m => .err m
    | .exn m => .err m
  (result, purgeCache (clearState s1), 1)

/-- Embeds `signOut`.  `respOk` is the dispatcher's answer to the
`auth.signout` dispatch; the last component counts those dispatches.
The reactive state and the cache are cleared in the `finally` clause. -/
def signOut (env : Env) (respOk : Bool) (s : ClientState) : Bool × ClientState × Nat :=
  let g := getIdToken env false s
  let inner : Bool × Nat :=
    match g.1 with
    | some _ =>
      match getToken g.2.1 with
      | none => (false, 0)
      | some _ => (respOk, 1)
    | none => (true, 0)
  (inner.1, purgeCache (clearState g.2.1), inner.2)

/-- Embeds `updateProfile` up to its dispatch: a missing id token or a
missing cached token short-circuits to an error with no
`auth.update_profile` dispatch; otherwise the dispatcher outcome is
reshaped and, on success, `_setAuthData` commits the new record. -/
def updateProfile (env : Env) (resp : DispatchOutcome TokenRecord)
    (s : ClientState) : AuthResult (Option String) × ClientState × Nat :=
  let g := getIdToken env true s
  match g.1 with
  | none => (.err "Invalid or missing ID token.", g.2.1, 0)
  | some _ =>
    match getToken g.2.1 with
    | none => (.err "Missing token.", g.2.1, 0)
    | some _ =>
      match resp with
      | .ok d => (.ok d.user_profile, setAuthData d env.now g.2.1, 1)
      | .err m => (.err m, g.2.1, 1)
      | .exn m => (.err m, g.2.1, 1)

/-- Embeds `signInWithOAuthAccessCode` up to its dispatch: a missing nonce
(argument or stored) or a missing cached token clears state, purges the
cache and fails with no `auth.signin` dispatch; otherwise the exchange is
dispatched.  The last component counts `auth.signin` dispatches. -/
def signInWithOAuthAccessCode (env : Env) (nonceArg : Option String)
    (resp : DispatchOutcome TokenRecord)
    (s : ClientState) : AuthResult (Option String) × ClientState × Nat :=
  let nonce := match nonceArg with
    | some n => some n
    | none => s.nonce
  match nonce with
  | none => (.err "Missing nonce.", purgeCache (clearState s), 0)
  | some _ =>
    match getToken s with
    | none => (.err "Missing token.", purgeCache (clearState s), 0)
    | some _ =>
      match resp with
      | .ok d => (.ok d.user_profile, setAuthData d env.now s, 1)
      | .err m => (.err m, purgeCache (clearState s), 1)
      | .exn m => (.err m, purgeCache (clearState s), 1)

/-- Embeds `_loadFromCache`: validates the cached record into the reactive
state, falls back to a refresh when the record is stale but refreshable,
and clears the reactive state when the cache is empty. -/
def loadFromCache (env : Env) (s : ClientState) : Bool × ClientState :=
  match s.cache with
  | some t =>
    if isTokenValid env.now t then
      (true, setState t s)
    else if t.refresh_token ≠ none then
      let r := refreshToken t.refresh_token t.id_token env.refreshResp env.now s
      (r.1, r.2.1)
    else
      (false, s)
  | none => (false, clearState s)

/-- A storage change event as seen by `_storageEventListener`: the storage
key it concerns and the `token` cache entries decoded from the serialized
old and new payloads (`parseData(e.oldValue)?.token?.[1]` and the same for
`newValue`). -/
structure StorageChangeEvent where
  key : String
  oldTok : Option TokenRecord
  newTok : Option TokenRecord

/-- Embeds `_storageEventListener` for a client whose storage namespace is
`ns`: on an event for that namespace it compares `oldValue?._rev` with
`newValue?._rev` and re-runs `_loadFromCache` exactly when they differ.
The boolean reports whether `_loadFromCache` was invoked. -/
def storageEventListener (ns : String) (env : Env) (e : StorageChangeEvent)
    (s : ClientState) : ClientState × Bool :=
  if e.key = ns then
    if (e.oldTok.bind (·.rev)) ≠ (e.newTok.bind (·.rev)) then
      ((loadFromCache env s).2, true)
    else
      (s, false)
  else
    (s, false)

/-!
Interleaving model of `_refreshToken` for the concurrency claim.  The
source runs on a single-threaded event queue; a call's only suspension
point is its `await this._dispatch(...)`.  A call therefore executes in two
atomic phases: `enter` (the guard checks, raising the in-flight flag, and
sending the dispatch) and `complete` (the dispatch resolving, the response
handling, and the `finally` clause lowering the flag).  A call whose
`enter` finds the flag raised returns `false` within that same phase.
-/

/-- Shared state of the interleaving model: the in-flight flag, the set of
calls whose dispatch has been sent but has not yet resolved, and the
results returned so far, as pairs of call id and boolean result. -/
structure RefreshSys where
  inProgress : Bool
  inFlight : List Nat
  results : List (Nat × Bool)
  deriving Repr, DecidableEq

/-- The initial shared state: flag down, nothing in flight. -/
def RefreshSys.init : RefreshSys :=
  { inProgress := false, inFlight := [], results := [] }

/-- One atomic phase of some call: `enter c` is call `c` running from the
top of `_refreshToken` to its dispatch send, `complete c ok` is the
dispatch of call `c` resolving with outcome `ok` and the call finishing. -/
inductive RefreshEvent where
  | enter (c : Nat)
  | complete (c : Nat) (ok : Bool)
  deriving Repr, DecidableEq

/-- Transition function of the interleaving model. -/
def refreshStep (s : RefreshSys) : RefreshEvent → RefreshSys
  | .enter c =>
    if s.inProgress then
      { s with results := s.results ++ [(c, false)] }
    else
      { s with inProgress := true, inFlight := s.inFlight ++ [c] }
  | .complete c ok =>
    if c ∈ s.inFlight then
      { inProgress := false,
        inFlight := s.inFlight.erase c,
        results := s.results ++ [(c, ok)] }
    else
      s

/-- Running a sequence of phases from a state. -/
def refreshRun (s : RefreshSys) (evs : List RefreshEvent) : RefreshSys :=
  evs.foldl refreshStep s

/-- The at-most-one-in-flight invariant of the interleaving model: the
number of unresolved `auth.refresh_token` dispatches equals the in-flight
flag. -/
def refreshInv (s : RefreshSys) : Prop :=
  s.inFlight.length = if s.inProgress then 1 else 0

/-!
Model of JavaScript values for `lib.ts`'s `copy` and `useReactiveState`.
Mutable JavaScript objects and arrays carry an identity (their heap
address); two nodes with the same identity tag are the same object, so an
in-place mutation of an object is modelled as rewriting the contents of
every node carrying its tag.  `copy` from the source returns primitives
as-is, returns anything that is not a plain object as-is (in particular an
array is returned by reference, keeping its tag and contents), and
rebuilds a plain object with a fresh identity and recursively copied field
values.
-/

mutual

inductive JVal where
  | prim : Int → JVal
  | obj : Nat → JFields → JVal
  | arr : Nat → JElems → JVal
  deriving Repr, DecidableEq

inductive JFields where
  | nil : JFields
  | cons : String → JVal → JFields → JFields
  deriving Repr, DecidableEq

inductive JElems where
  | nil : JElems
  | cons : JVal → JElems → JElems
  deriving Repr, DecidableEq

end

mutual

/-- Embeds `copy` from `lib.ts` on a value, threading a fresh-identity
counter: primitives and non-plain-objects (arrays) are returned as-is,
plain objects are rebuilt under a fresh identity with copied fields. -/
def copyV (n : Nat) : JVal → JVal × Nat
  | .prim k => (.prim k, n)
  | .arr a es => (.arr a es, n)
  | .obj _ fs =>
    let r := copyF (n + 1) fs
    (.obj n r.1, r.2)

/-- Embeds the `for (const key in obj) temp[key] = copy(obj[key])` loop. -/
def copyF (n : Nat) : JFields → JFields × Nat
  | .nil => (.nil, n)
  | .cons k v rest =>
    let rv := copyV n v
    let rr := copyF rv.2 rest
    (.cons k rv.1 rr.1, rr.2)

end

mutual

/-- Identity tags occurring in a value. -/
def tagsV : JVal → List Nat
  | .prim _ => []
  | .obj a fs => a :: tagsF fs
  | .arr a es => a :: tagsE es

/-- Identity tags occurring in a field list. -/
def tagsF : JFields → List Nat
  | .nil => []
  | .cons _ v rest => tagsV v ++ tagsF rest

/-- Identity tags occurring in an element list. -/
def tagsE : JElems → List Nat
  | .nil => []
  | .cons v rest => tagsV v ++ tagsE rest

end

mutual

/-- True when a value contains no array anywhere. -/
def arrFreeV : JVal → Bool
  | .prim _ => true
  | .obj _ fs => arrFreeF fs
  | .arr _ _ => false

/-- True when a field list contains no array anywhere. -/
def arrFreeF : JFields → Bool
  | .nil => true
  | .cons _ v rest => arrFreeV v && arrFreeF rest

/-- True when an element list contains no array anywhere. -/
def arrFreeE : JElems → Bool
  | .nil => true
  | .cons v rest => arrFreeV v && arrFreeE rest

end

mutual

/-- In-place mutation of the plain object with identity `t`: every node
carrying that tag has its contents replaced by `repl`. -/
def mutObjV (t : Nat) (repl : JFields) : JVal → JVal
  | .prim k => .prim k
  | .obj a fs => if a = t then .obj a repl else .obj a (mutObjF t repl fs)
  | .arr a es => .arr a (mutObjE t repl es)

/-- `mutObjV` mapped over a field list. -/
def mutObjF (t : Nat) (repl : JFields) : JFields → JFields
  | .nil => .nil
  | .cons k v rest => .cons k (mutObjV t repl v) (mutObjF t repl rest)

/-- `mutObjV` mapped over an element list. -/
def mutObjE (t : Nat) (repl : JFields) : JElems → JElems
  | .nil => .nil
  | .cons v rest => .cons (mutObjV t repl v) (mutObjE t repl rest)

end

mutual

/-- In-place mutation of the array with identity `t`: every node carrying
that tag has its elements replaced by `repl`. -/
def mutArrV (t : Nat) (repl : JElems) : JVal → JVal
  | .prim k => .prim k
  | .obj a fs => .obj a (mutArrF t repl fs)
  | .arr a es => if a = t then .arr a repl else .arr a (mutArrE t repl es)

/-- `mutArrV` mapped over a field list. -/
def mutArrF (t : Nat) (repl : JElems) : JFields → JFields
  | .nil => .nil
  | .cons k v rest => .cons k (mutArrV t repl v) (mutArrF t repl rest)

/-- `mutArrV` mapped over an element list. -/
def mutArrE (t : Nat) (repl : JElems) : JElems → JElems
  | .nil => .nil
  | .cons v rest => .cons (mutArrV t repl v) (mutArrE t repl rest)

end

mutual

/-- A value with the identity tags erased: the pure structural content. -/
inductive UVal where
  | prim : Int → UVal
  | obj : UFields → UVal
  | arr : UElems → UVal
  deriving Repr, DecidableEq

inductive UFields where
  | nil : UFields
  | cons : String → UVal → UFields → UFields
  deriving Repr, DecidableEq

inductive UElems where
  | nil : UElems
  | cons : UVal → UElems → UElems
  deriving Repr, DecidableEq

end

mutual

/-- Erases identity tags from a value. -/
def eraseV : JVal → UVal
  | .prim k => .prim k
  | .obj _ fs => .obj (eraseF fs)
  | .arr _ es => .arr (eraseE es)

/-- Erases identity tags from a field list. -/
def eraseF : JFields → UFields
  | .nil => .nil
  | .cons k v rest => .cons k (eraseV v) (eraseF rest)

/-- Erases identity tags from an element list. -/
def eraseE : JElems → UElems
  | .nil => .nil
  | .cons v rest => .cons (eraseV v) (eraseE rest)

end

/-!
The reactive store of `lib.ts`'s `useReactiveState`.  Its proxied target is
a plain object, modelled by its field list; observers are identified by
numbers.  The proxy's `set` trap is the single code path for both a direct
field write and a `__patch__` write.
-/

/-- The reactive store: the proxied plain object and the registered
observers in registration order. -/
structure RState where
  target : JFields
  observers : List Nat
  deriving Repr, DecidableEq

/-- The `value` argument arriving at the `set` trap: either a direct field
write or the object assigned to `__patch__`. -/
inductive WritePayload where
  | field (k : String) (v : JVal)
  | patchObj (kvs : JFields)
  deriving Repr, DecidableEq

/-- JavaScript `target[k] = v` on a plain object: overwrite the existing
key in place or append a new one. -/
def assocSet (k : String) (v : JVal) : JFields → JFields
  | .nil => .cons k v .nil
  | .cons k0 v0 rest =>
    if k0 = k then .cons k0 v rest else .cons k0 v0 (assocSet k v rest)

/-- The `for (const k of Object.keys(value)) target[k] = value[k]` loop of
the `__patch__` branch. -/
def applyPatch (t : JFields) : JFields → JFields
  | .nil => t
  | .cons k v rest => applyPatch (assocSet k v t) rest

/-- The state mutation performed by the `set` trap. -/
def applyWrite (t : JFields) : WritePayload → JFields
  | .field k v => assocSet k v t
  | .patchObj kvs => applyPatch t kvs

/-- One observer invocation `observer(value, prev, target)`. -/
structure ObserverCall where
  observer : Nat
  value : WritePayload
  prev : JFields
  current : JFields
  deriving Repr, DecidableEq

/-- Embeds the `set` trap of `useReactiveState`: take a deep-copy snapshot
of the target, apply the write (field assignment or patch loop), then call
`observers.forEach(observer => observer(value, prev, target))`.  Returns
the new store, the advanced identity counter and the observer calls made. -/
def setTrap (n : Nat) (st : RState) (op : WritePayload) :
    RState × Nat × List ObserverCall :=
  let prev := copyF n st.target
  let newTarget := applyWrite st.target op
  ({ target := newTarget, observers := st.observers }, prev.2,
    st.observers.map (fun o =>
      { observer := o, value := op, prev := prev.1, current := newTarget }))

/-!
Concrete inputs used by witnesses and counterexamples.
-/

/-- A cached record that is expired at `now = 1000000` but refreshable. -/
def staleTok : TokenRecord :=
  { id_token := some "old", refresh_token := some "r", exp := some 0 }

/-- A fresh record as the dispatcher returns it for a granted refresh. -/
def grantedTok : TokenRecord :=
  { id_token := some "new", exp := some 2000000 }

/-- An environment granting the refresh of `staleTok` with `grantedTok`. -/
def grantEnv : Env :=
  { now := 1000000, refreshResp := .ok grantedTok }

/-- A client holding only the stale cached record. -/
def staleState : ClientState :=
  { cache := some staleTok }

/-- A valid cached record stamped with revision 5. -/
def revTok5 : TokenRecord :=
  { id_token := some "a", exp := some 1000, rev := some 5 }

/-- A record stamped with revision 7, held by the tab's reactive state. -/
def revTok7 : TokenRecord :=
  { id_token := some "b", exp := some 1000, rev := some 7 }

/-- A tab whose reactive state already holds revision 7 while the shared
cache holds revision 5. -/
def outOfSyncState : ClientState :=
  { token := some revTok7, cache := some revTok5 }

/-- An environment for the storage-event scenarios (the dispatcher is
never consulted because the cached record is valid at `now = 0`). -/
def quietEnv : Env :=
  { now := 0, refreshResp := .err "unused" }

/-- A storage event moving the stored payload from revision 5 to
revision 7. -/
def rev5to7Event : StorageChangeEvent :=
  { key := "sb", oldTok := some revTok5, newTok := some revTok7 }

/-- The record a successful `auth.signup` dispatch returns. -/
def signupGrant : TokenRecord :=
  { id_token := some "fresh", refresh_token := some "freshR",
    exp := some 2000000, user_profile := some "alice" }

/-- A client whose persistent cache is empty while its reactive state
still holds a token that is valid at `now = 0`. -/
def cachelessState : ClientState :=
  { token := some revTok7 }

/-- A reactive store with two registered observers. -/
def twoObsStore : RState :=
  { target := .nil, observers := [0, 1] }

/-- A reactive store whose state holds a nested plain object (no arrays);
its only identity tag is 5. -/
def objStore : RState :=
  { target := .cons "a" (.obj 5 .nil) .nil, observers := [0] }

/-- A reactive store whose state holds an array (identity tag 1). -/
def arrStore : RState :=
  { target := .cons "a" (.arr 1 (.cons (.prim 1) .nil)) .nil, observers := [0] }

/-!
Claim theorems.
-/

/-- C1 counterexample: the claim's worked example is off by one.  With the
default margin of 60 seconds and `now = 1000s = 1000000ms`, the code's
check `exp * 1000 - 60 * 1000 > now` evaluates to `1001000 > 1000000` for
`exp = 1061`, so `_isTokenValid` returns `true`, while the claim states
that a record with `exp = 1061` is invalid. -/
theorem C1_counterexample :
    isTokenValid 1000000 { id_token := some "jwt", exp := some 1061 } = true := by
  decide

/-- C1 (amended): token validity holds iff `id_token` is present,
`token_info.exp` is present and `exp * 1000 - 60 * 1000 > now`; a record
missing either field is always invalid.  The boundary example at
`now = 1000s` is `exp = 1060` invalid and `exp = 1061` (and `1062`) valid. -/
theorem C1_token_validity :
    (∀ (now : Int) (t : TokenRecord),
        isTokenValid now t = true ↔
          t.id_token ≠ none ∧ ∃ e, t.exp = some e ∧ e * 1000 - 60 * 1000 > now)
    ∧ isTokenValid 1000000 { id_token := some "jwt", exp := some 1060 } = false
    ∧ isTokenValid 1000000 { id_token := some "jwt", exp := some 1061 } = true
    ∧ isTokenValid 1000000 { id_token := some "jwt", exp := some 1062 } = true
    ∧ (∀ (now : Int) (t : TokenRecord), t.exp = none → isTokenValid now t = false)
    ∧ (∀ (now : Int) (t : TokenRecord), t.id_token = none → isTokenValid now t = false) := by
  refine ⟨?_, by decide, by decide, by decide, ?_, ?_⟩
  · intro now t
    cases hid : t.id_token <;> cases hexp : t.exp <;>
      simp [isTokenValid, EXPIRY_MARGIN, hid, hexp]
  · intro now t h
    unfold isTokenValid
    rw [h]
    cases t.id_token <;> rfl
  · intro now t h
    unfold isTokenValid
    rw [h]

/-- C1 witness: the amended theorem applied at a concrete record with no
expiry field, discharging the hypothesis `t.exp = none`. -/
theorem C1_token_validity_witness :
    isTokenValid 1000000 { refresh_token := some "r" } = false :=
  C1_token_validity.2.2.2.2.1 1000000 { refresh_token := some "r" } rfl

/-- C4: when the dispatcher rejects the refresh or throws, `_refreshToken`
returns `false`, raises the sticky failure flag, and leaves the reactive
state and the persistent cache untouched: the token and the cached record
after the call are exactly those before it, so a failed refresh never logs
the user out. -/
theorem C4_refresh_failure_preserves_session :
    ∀ (rt idt : Option String) (resp : DispatchOutcome TokenRecord)
      (now : Int) (s : ClientState),
      (∀ d, resp ≠ .ok d) →
      rt ≠ none → idt ≠ none → s.refreshInProgress = false →
      refreshToken rt idt resp now s = (false, { s with refreshFailed := true }, 1)
      ∧ ((refreshToken rt idt resp now s).2.1).token = s.token
      ∧ ((refreshToken rt idt resp now s).2.1).cache = s.cache
      ∧ ((refreshToken rt idt resp now s).2.1).user_profile = s.user_profile
      ∧ ((refreshToken rt idt resp now s).2.1).refreshFailed = true := by
  intro rt idt resp now s hnok hrt hidt hflag
  cases resp with
  | ok d => exact absurd rfl (hnok d)
  | err m => simp [refreshToken, hrt, hidt, hflag]
  | exn m => simp [refreshToken, hrt, hidt, hflag]

/-- C4 witness: the theorem applied to a concrete failing refresh. -/
theorem C4_refresh_failure_preserves_session_witness :
    refreshToken (some "r") (some "i") (.err "boom") 0
        { cache := some { id_token := some "i", refresh_token := some "r" } } =
      (false,
        { cache := some { id_token := some "i", refresh_token := some "r" },
          refreshFailed := true },
        1) :=
  (C4_refresh_failure_preserves_session (some "r") (some "i") (.err "boom") 0
    { cache := some { id_token := some "i", refresh_token := some "r" } }
    (fun d h => by cases h) (by decide) (by decide) rfl).1

/-- C5: a successful refresh replaces the Session Record wholesale in both
the reactive state (with the client-computed `expires_at`/`created_at`
added) and the persistent cache (with `_rev = now` added), publishes the
new record's own `user_profile`, clears the sticky failure flag, and
resets the retry counter; in particular the cached `refresh_token` is the
dispatcher record's, never the old one. -/
theorem C5_refresh_success_commits :
    ∀ (rt idt : Option String) (d : TokenRecord) (now : Int) (s : ClientState),
      rt ≠ none → idt ≠ none → s.refreshInProgress = false →
      refreshToken rt idt (.ok d) now s =
        (true,
          { s with
              user_profile := d.user_profile,
              token := some { d with
                expires_at := d.ttl.map (fun ttl => now + ttl * 1000),
                created_at := some now },
              cache := some { d with rev := some now },
              refreshFailed := false,
              retryCount := 0 },
          1)
      ∧ ((refreshToken rt idt (.ok d) now s).2.1).cache.map (·.refresh_token) =
          some d.refresh_token := by
  intro rt idt d now s hrt hidt hflag
  constructor
  · simp [refreshToken, hrt, hidt, hflag, setAuthData, setState]
  · simp [refreshToken, hrt, hidt, hflag, setAuthData, setState]

/-- C5 witness: the theorem applied to a concrete successful refresh where
the old cached record held a refresh token the server did not re-supply. -/
theorem C5_refresh_success_commits_witness :
    refreshToken (some "oldR") (some "oldI") (.ok { id_token := some "newI" }) 7
        { cache := some { id_token := some "oldI", refresh_token := some "oldR" },
          refreshFailed := true, retryCount := 3 } =
      (true,
        { user_profile := none,
          token := some { id_token := some "newI", created_at := some 7 },
          cache := some { id_token := some "newI", rev := some 7 },
          refreshFailed := false,
          retryCount := 0 },
        1) :=
  (C5_refresh_success_commits (some "oldR") (some "oldI") { id_token := some "newI" } 7
    { cache := some { id_token := some "oldI", refresh_token := some "oldR" },
      refreshFailed := true, retryCount := 3 }
    (by decide) (by decide) rfl).1

theorem refreshStep_preserves_inv (s : RefreshSys) (e : RefreshEvent)
    (h : refreshInv s) : refreshInv (refreshStep s e) := by
  cases e with
  | enter c =>
    by_cases hp : s.inProgress <;>
      simp_all [refreshInv, refreshStep]
  | complete c ok =>
    rw [refreshInv] at h
    by_cases hc : c ∈ s.inFlight
    · have hp : s.inProgress = true := by
        cases hpb : s.inProgress
        · rw [hpb] at h
          simp at h
          simp [h] at hc
        · rfl
      have hlen : s.inFlight.length = 1 := by rw [hp] at h; simpa using h
      simp [refreshInv, refreshStep, hc, List.length_erase_of_mem hc, hlen]
    · simpa [refreshInv, refreshStep, hc] using h

theorem refreshRun_preserves_inv (evs : List RefreshEvent) :
    ∀ s : RefreshSys, refreshInv s → refreshInv (refreshRun s evs) := by
  induction evs with
  | nil => intro s h; simpa [refreshRun] using h
  | cons e rest ih =>
    intro s h
    have h1 := refreshStep_preserves_inv s e h
    simpa [refreshRun, List.foldl_cons] using ih (refreshStep s e) h1

/-- C2: the in-flight guard of `_refreshToken`.  Sequentially: a call that
finds the flag raised returns `false` with the client state unchanged and
issues no dispatch.  In the interleaving model: an `enter` phase arriving
while the flag is up records a `false` result for that call and sends no
dispatch; from the initial state, every phase sequence keeps the number of
in-flight `auth.refresh_token` dispatches at most one; and the concrete
back-to-back schedule of two calls ends with exactly one dispatch in
flight and a `false` result for the second call. -/
theorem C2_at_most_one_refresh_in_flight :
    (∀ (rt idt : Option String) (resp : DispatchOutcome TokenRecord)
        (now : Int) (s : ClientState),
        s.refreshInProgress = true →
        refreshToken rt idt resp now s = (false, s, 0))
    ∧ (∀ (sys : RefreshSys) (c : Nat),
        sys.inProgress = true →
        refreshStep sys (.enter c) =
          { sys with results := sys.results ++ [(c, false)] })
    ∧ (∀ evs : List RefreshEvent,
        (refreshRun RefreshSys.init evs).inFlight.length ≤ 1)
    ∧ refreshRun RefreshSys.init [.enter 1, .enter 2] =
        { inProgress := true, inFlight := [1], results := [(2, false)] } := by
  refine ⟨?_, ?_, ?_, by decide⟩
  · intro rt idt resp now s h
    by_cases hg : rt = none ∨ idt = none
    · simp [refreshToken, hg]
    · simp [refreshToken, hg, h]
  · intro sys c h
    simp [refreshStep, h]
  · intro evs
    have h := refreshRun_preserves_inv evs RefreshSys.init (by simp [refreshInv, RefreshSys.init])
    rw [refreshInv] at h
    rw [h]
    split <;> simp

/-- C2 witness: the sequential guard applied to a concrete in-progress
state, and the step guard applied to a concrete raised-flag system. -/
theorem C2_at_most_one_refresh_in_flight_witness :
    refreshToken (some "r") (some "i") (.ok {}) 0
        { refreshInProgress := true } = (false, { refreshInProgress := true }, 0) :=
  C2_at_most_one_refresh_in_flight.1 (some "r") (some "i") (.ok {}) 0
    { refreshInProgress := true } rfl

/-- C6 counterexample: the listener does not compare the new payload's
revision with the revision the tab already has; it compares the event's
old payload with its new payload.  Here the tab's reactive state already
holds revision 7 and the event's new payload also carries revision 7, so
by the claim nothing may change, yet the code sees `5 ≠ 7` between the two
payloads, re-reads the cache and overwrites the tab's state. -/
theorem C6_counterexample :
    (storageEventListener "sb" quietEnv rev5to7Event outOfSyncState).1 ≠ outOfSyncState
    ∧ outOfSyncState.token.bind (fun t => t.rev) =
        rev5to7Event.newTok.bind (fun t => t.rev) := by
  decide

/-- C6 (amended): on a storage event for this SDK's namespace the tab
re-runs `_loadFromCache` exactly when the revision in the event's old
payload differs from the revision in its new payload (which equals "the
revision this tab already has" only when the tab is in sync with the old
stored value); events for other keys, and events with identical payload
revisions, leave the state untouched. -/
theorem C6_storage_event_reload :
    ∀ (ns : String) (env : Env) (e : StorageChangeEvent) (s : ClientState),
      (e.key = ns →
        ((storageEventListener ns env e s).2 = true ↔
          e.oldTok.bind (fun t => t.rev) ≠ e.newTok.bind (fun t => t.rev)))
      ∧ (e.key ≠ ns → storageEventListener ns env e s = (s, false))
      ∧ ((storageEventListener ns env e s).2 = false →
          (storageEventListener ns env e s).1 = s)
      ∧ ((storageEventListener ns env e s).2 = true →
          (storageEventListener ns env e s).1 = (loadFromCache env s).2) := by
  intro ns env e s
  refine ⟨?_, ?_, ?_, ?_⟩
  · intro hk
    by_cases hrev : e.oldTok.bind (fun t => t.rev) ≠ e.newTok.bind (fun t => t.rev) <;>
      simp [storageEventListener, hk, hrev]
  · intro hk
    simp [storageEventListener, hk]
  · intro h2
    by_cases hk : e.key = ns
    · by_cases hrev : e.oldTok.bind (fun t => t.rev) ≠ e.newTok.bind (fun t => t.rev)
      · simp [storageEventListener, hk, hrev] at h2
      · simp [storageEventListener, hk, hrev]
    · simp [storageEventListener, hk]
  · intro h2
    by_cases hk : e.key = ns
    · by_cases hrev : e.oldTok.bind (fun t => t.rev) ≠ e.newTok.bind (fun t => t.rev)
      · simp [storageEventListener, hk, hrev]
      · simp [storageEventListener, hk, hrev] at h2
    · simp [storageEventListener, hk] at h2

/-- C6 witness: the amended theorem applied to the concrete revision-5-to-7
event, discharging the namespace hypothesis and the reload hypothesis. -/
theorem C6_storage_event_reload_witness :
    (storageEventListener "sb" quietEnv rev5to7Event outOfSyncState).1 =
      (loadFromCache quietEnv outOfSyncState).2 :=
  (C6_storage_event_reload "sb" quietEnv rev5to7Event outOfSyncState).2.2.2 (by decide)

/-- C9 counterexample: a concrete `signUpWithPassword` call whose dispatch
succeeds (the result is `ok` with the dispatcher's record) yet whose final
client state holds no Session Record at all: the `finally` clause clears
the reactive state and purges the persistent cache, so the client does not
transition to AUTHENTICATED. -/
theorem C9_counterexample :
    (signUpWithPassword (.ok signupGrant) staleState).1 = .ok signupGrant
    ∧ ((signUpWithPassword (.ok signupGrant) staleState).2.1).token = none
    ∧ ((signUpWithPassword (.ok signupGrant) staleState).2.1).cache = none := by
  decide

/-- C9 (amended): a successful `signUpWithPassword` call returns `ok` with
the dispatcher's data but creates no Session Record: on every path the
operation ends with the Observable State cleared and the Persistent Cache
purged, leaving the client ANONYMOUS; Session Records are created by
sign-in, refresh and OAuth code exchange, not by sign-up. -/
theorem C9_signup_leaves_anonymous :
    ∀ (resp : DispatchOutcome TokenRecord) (s : ClientState),
      ((signUpWithPassword resp s).2.1).token = none
      ∧ ((signUpWithPassword resp s).2.1).cache = none
      ∧ ((signUpWithPassword resp s).2.1).user_profile = none
      ∧ (∀ d, resp = .ok d → (signUpWithPassword resp s).1 = .ok d)
      ∧ (∀ m, resp = .err m → (signUpWithPassword resp s).1 = .err m) := by
  intro resp s
  refine ⟨rfl, rfl, rfl, ?_, ?_⟩
  · intro d h
    rw [h]
    rfl
  · intro m h
    rw [h]
    rfl

/-- C9 witness: the amended theorem applied to the concrete successful
sign-up, discharging the `resp = ok d` hypothesis. -/
theorem C9_signup_leaves_anonymous_witness :
    (signUpWithPassword (.ok signupGrant) staleState).1 = .ok signupGrant :=
  (C9_signup_leaves_anonymous (.ok signupGrant) staleState).2.2.2.1 signupGrant rfl

/-- C10: token-consuming operations read the Session Record through
`_getToken`, which is the persistent cache, never the reactive state slot.
Consequently, with an empty cache — and no constraint at all on the
reactive `token` slot, which may still hold a valid token — `getIdToken`
returns `none` for both flag values, `refreshSession` returns `none`,
`signOut` issues no `auth.signout` dispatch and reports success,
`updateProfile` fails with no dispatch, and the OAuth code exchange fails
with `Missing token.` and no dispatch. -/
theorem C10_token_reads_go_through_cache :
    (∀ s : ClientState, getToken s = s.cache)
    ∧ ∀ (env : Env) (s : ClientState),
        s.cache = none →
        (getIdToken env false s).1 = none
        ∧ (getIdToken env true s).1 = none
        ∧ (refreshSession env s).1 = none
        ∧ (∀ respOk, (signOut env respOk s).2.2 = 0 ∧ (signOut env respOk s).1 = true)
        ∧ (∀ resp, updateProfile env resp s =
            (.err "Invalid or missing ID token.", s, 0))
        ∧ (∀ resp n0,
            (signInWithOAuthAccessCode env (some n0) resp s).1 = .err "Missing token."
            ∧ (signInWithOAuthAccessCode env (some n0) resp s).2.2 = 0) := by
  refine ⟨fun s => rfl, ?_⟩
  intro env s h
  have hget : getToken s = none := h
  have hfalse : getIdToken env false s = (none, s, 0) := by
    rw [getIdToken, hget]
  have htrue : getIdToken env true s = (none, s, 0) := by
    rw [getIdToken, hget]
  refine ⟨by rw [hfalse], by rw [htrue], ?_, ?_, ?_, ?_⟩
  · simp [refreshSession, hget]
  · intro respOk
    constructor <;> simp [signOut, hfalse]
  · intro resp
    simp [updateProfile, htrue]
  · intro resp n0
    constructor <;> simp [signInWithOAuthAccessCode, hget]

/-- C10 witness: the theorem applied to a client with an empty cache whose
reactive state still holds a valid token. -/
theorem C10_token_reads_go_through_cache_witness :
    (getIdToken quietEnv false cachelessState).1 = none :=
  (C10_token_reads_go_through_cache.2 quietEnv cachelessState rfl).1

/-- C7: one `set` trap call — whether a direct field write or a `__patch__`
write changing any number of fields — invokes the registered observers
exactly once each, in registration order, each receiving the written
value, the pre-write deep-copy snapshot, and the post-write state. -/
theorem C7_one_notification_per_write :
    ∀ (n : Nat) (st : RState) (op : WritePayload),
      ((setTrap n st op).2.2.map (fun call => call.observer)) = st.observers
      ∧ (setTrap n st op).2.2.length = st.observers.length
      ∧ (∀ call ∈ (setTrap n st op).2.2,
          call.value = op
          ∧ call.prev = (copyF n st.target).1
          ∧ call.current = applyWrite st.target op)
      ∧ ((setTrap n st op).1).target = applyWrite st.target op := by
  intro n st op
  refine ⟨?_, ?_, ?_, rfl⟩
  · simp only [setTrap]
    induction st.observers with
    | nil => rfl
    | cons o rest ih => simpa using ih
  · simp [setTrap]
  · intro call hc
    simp only [setTrap, List.mem_map] at hc
    rcases hc with ⟨o, _, rfl⟩
    exact ⟨rfl, rfl, rfl⟩

/-- C7 witness: the theorem applied to a two-field patch of a store with
two observers, discharging the membership hypothesis at the head call. -/
theorem C7_one_notification_per_write_witness :
    ((setTrap 0 twoObsStore
        (.patchObj (.cons "x" (.prim 1) (.cons "y" (.prim 2) .nil)))).2.2.map
      (fun call => call.observer)) = twoObsStore.observers :=
  (C7_one_notification_per_write 0 twoObsStore
    (.patchObj (.cons "x" (.prim 1) (.cons "y" (.prim 2) .nil)))).1

mutual

theorem copyV_counter_le : ∀ (n : Nat) (v : JVal), n ≤ (copyV n v).2
  | n, .prim _ => Nat.le_refl n
  | n, .arr _ _ => Nat.le_refl n
  | n, .obj _ fs => by
      have h := copyF_counter_le (n + 1) fs
      simpa [copyV] using Nat.le_trans (Nat.le_succ n) h

theorem copyF_counter_le : ∀ (n : Nat) (fs : JFields), n ≤ (copyF n fs).2
  | n, .nil => Nat.le_refl n
  | n, .cons _ v rest => by
      have h1 := copyV_counter_le n v
      have h2 := copyF_counter_le (copyV n v).2 rest
      simpa [copyF] using Nat.le_trans h1 h2

end

mutual

theorem copyV_tags_fresh : ∀ (n : Nat) (v : JVal), arrFreeV v = true →
    ∀ t ∈ tagsV (copyV n v).1, n ≤ t
  | _, .prim _, _ => by simp [copyV, tagsV]
  | _, .arr _ _, hfree => by simp [arrFreeV] at hfree
  | n, .obj a fs, hfree => by
      have hf : arrFreeF fs = true := by simpa [arrFreeV] using hfree
      intro t ht
      simp only [copyV, tagsV, List.mem_cons] at ht
      rcases ht with rfl | ht
      · exact Nat.le_refl t
      · exact Nat.le_trans (Nat.le_succ n) (copyF_tags_fresh (n + 1) fs hf t ht)

theorem copyF_tags_fresh : ∀ (n : Nat) (fs : JFields), arrFreeF fs = true →
    ∀ t ∈ tagsF (copyF n fs).1, n ≤ t
  | _, .nil, _ => by simp [copyF, tagsF]
  | n, .cons k v rest, hfree => by
      have hv : arrFreeV v = true := by
        have := hfree
        simp [arrFreeF, Bool.and_eq_true] at this
        exact this.1
      have hr : arrFreeF rest = true := by
        have := hfree
        simp [arrFreeF, Bool.and_eq_true] at this
        exact this.2
      intro t ht
      simp only [copyF, tagsF, List.mem_append] at ht
      rcases ht with ht | ht
      · exact copyV_tags_fresh n v hv t ht
      · exact Nat.le_trans (copyV_counter_le n v)
          (copyF_tags_fresh (copyV n v).2 rest hr t ht)

end

mutual

theorem mutObjV_not_mem : ∀ (t : Nat) (repl : JFields) (v : JVal),
    t ∉ tagsV v → mutObjV t repl v = v
  | _, _, .prim _, _ => rfl
  | t, repl, .obj a fs, h => by
      have hne : a ≠ t := by
        intro hEq
        exact h (by simp [tagsV, hEq])
      have hfs : t ∉ tagsF fs := fun hmem => h (by simp [tagsV, hmem])
      simp [mutObjV, hne, mutObjF_not_mem t repl fs hfs]
  | t, repl, .arr a es, h => by
      have hes : t ∉ tagsE es := fun hmem => h (by simp [tagsV, hmem])
      simp [mutObjV, mutObjE_not_mem t repl es hes]

theorem mutObjF_not_mem : ∀ (t : Nat) (repl : JFields) (fs : JFields),
    t ∉ tagsF fs → mutObjF t repl fs = fs
  | _, _, .nil, _ => rfl
  | t, repl, .cons k v rest, h => by
      have hv : t ∉ tagsV v := fun hmem => h (by simp [tagsF, hmem])
      have hr : t ∉ tagsF rest := fun hmem => h (by simp [tagsF, hmem])
      simp [mutObjF, mutObjV_not_mem t repl v hv, mutObjF_not_mem t repl rest hr]

theorem mutObjE_not_mem : ∀ (t : Nat) (repl : JFields) (es : JElems),
    t ∉ tagsE es → mutObjE t repl es = es
  | _, _, .nil, _ => rfl
  | t, repl, .cons v rest, h => by
      have hv : t ∉ tagsV v := fun hmem => h (by simp [tagsE, hmem])
      have hr : t ∉ tagsE rest := fun hmem => h (by simp [tagsE, hmem])
      simp [mutObjE, mutObjV_not_mem t repl v hv, mutObjE_not_mem t repl rest hr]

end

mutual

theorem mutArrV_not_mem : ∀ (t : Nat) (repl : JElems) (v : JVal),
    t ∉ tagsV v → mutArrV t repl v = v
  | _, _, .prim _, _ => rfl
  | t, repl, .obj a fs, h => by
      have hfs : t ∉ tagsF fs := fun hmem => h (by simp [tagsV, hmem])
      simp [mutArrV, mutArrF_not_mem t repl fs hfs]
  | t, repl, .arr a es, h => by
      have hne : a ≠ t := by
        intro hEq
        exact h (by simp [tagsV, hEq])
      have hes : t ∉ tagsE es := fun hmem => h (by simp [tagsV, hmem])
      simp [mutArrV, hne, mutArrE_not_mem t repl es hes]

theorem mutArrF_not_mem : ∀ (t : Nat) (repl : JElems) (fs : JFields),
    t ∉ tagsF fs → mutArrF t repl fs = fs
  | _, _, .nil, _ => rfl
  | t, repl, .cons k v rest, h => by
      have hv : t ∉ tagsV v := fun hmem => h (by simp [tagsF, hmem])
      have hr : t ∉ tagsF rest := fun hmem => h (by simp [tagsF, hmem])
      simp [mutArrF, mutArrV_not_mem t repl v hv, mutArrF_not_mem t repl rest hr]

theorem mutArrE_not_mem : ∀ (t : Nat) (repl : JElems) (es : JElems),
    t ∉ tagsE es → mutArrE t repl es = es
  | _, _, .nil, _ => rfl
  | t, repl, .cons v rest, h => by
      have hv : t ∉ tagsV v := fun hmem => h (by simp [tagsE, hmem])
      have hr : t ∉ tagsE rest := fun hmem => h (by simp [tagsE, hmem])
      simp [mutArrE, mutArrV_not_mem t repl v hv, mutArrE_not_mem t repl rest hr]

end

mutual

theorem eraseV_copy : ∀ (n : Nat) (v : JVal), eraseV (copyV n v).1 = eraseV v
  | _, .prim _ => rfl
  | _, .arr _ _ => rfl
  | n, .obj a fs => by
      simp [copyV, eraseV, eraseF_copy (n + 1) fs]

theorem eraseF_copy : ∀ (n : Nat) (fs : JFields), eraseF (copyF n fs).1 = eraseF fs
  | _, .nil => rfl
  | n, .cons k v rest => by
      simp [copyF, eraseF, eraseV_copy n v, eraseF_copy (copyV n v).2 rest]

end

/-- C8 counterexample: `copy` returns arrays by reference, so a `prev`
snapshot taken of a state containing an array shares that array with the
live state.  Concretely: after a write to a store whose state holds the
array with identity 1, mutating that array in place through the live state
(replacing its single element 1 by 2) alters the `prev` snapshot already
delivered to the observer. -/
theorem C8_counterexample :
    ((setTrap 2 arrStore (.field "b" (.prim 0))).2.2.map
        (fun call => mutArrF 1 (.cons (.prim 2) .nil) call.prev))
      ≠ (setTrap 2 arrStore (.field "b" (.prim 0))).2.2.map (fun call => call.prev) := by
  decide

/-- C8 (amended): the `prev` snapshot delivered by a write is structurally
equal to the pre-write state, and — provided the state contains only
primitives and nested plain objects, no arrays — it is immune to later
in-place mutation of anything reachable from the live state: rewriting the
contents of any object or array identity occurring in the live state
leaves the snapshot unchanged.  With an array present the immunity fails,
because `copy` returns arrays by reference. -/
theorem C8_snapshot_deep_copy :
    ∀ (n : Nat) (st : RState) (op : WritePayload),
      arrFreeF st.target = true →
      (∀ t ∈ tagsF st.target, t < n) →
      ∀ call ∈ (setTrap n st op).2.2,
        eraseF call.prev = eraseF st.target
        ∧ ∀ t ∈ tagsF st.target,
            (∀ repl, mutObjF t repl call.prev = call.prev)
            ∧ (∀ repl, mutArrF t repl call.prev = call.prev) := by
  intro n st op hfree hbound call hc
  have hprev : call.prev = (copyF n st.target).1 := by
    simp only [setTrap, List.mem_map] at hc
    rcases hc with ⟨o, _, rfl⟩
    rfl
  have hnotin : ∀ t ∈ tagsF st.target, t ∉ tagsF (copyF n st.target).1 := by
    intro t ht hmem
    exact absurd (copyF_tags_fresh n st.target hfree t hmem)
      (Nat.not_le_of_lt (hbound t ht))
  refine ⟨by rw [hprev]; exact eraseF_copy n st.target, ?_⟩
  intro t ht
  constructor
  · intro repl
    rw [hprev]
    exact mutObjF_not_mem t repl _ (hnotin t ht)
  · intro repl
    rw [hprev]
    exact mutArrF_not_mem t repl _ (hnotin t ht)

/-- C8 witness: the amended theorem applied to the array-free store with
identity tag 5, discharging every hypothesis at the delivered call and at
the mutation of the object with tag 5. -/
theorem C8_snapshot_deep_copy_witness :
    mutObjF 5 .nil ((copyF 6 objStore.target).1) = (copyF 6 objStore.target).1 :=
  (((C8_snapshot_deep_copy 6 objStore (.field "b" (.prim 0)) (by decide) (by decide))
      { observer := 0, value := .field "b" (.prim 0),
        prev := (copyF 6 objStore.target).1,
        current := applyWrite objStore.target (.field "b" (.prim 0)) }
      (by decide)).2 5 (by decide)).1 .nil

theorem getIdToken_false_pure (env : Env) (s : ClientState) :
    (getIdToken env false s).2.1 = s ∧ (getIdToken env false s).2.2 = 0 := by
  rw [getIdToken]
  cases h : getToken s with
  | none => simp
  | some t => by_cases hv : isTokenValid env.now t <;> simp [hv]

/-- C3: `getIdToken(refresh)` returns the cached token's `id_token` when
that token is valid; with an invalid token, a present refresh token and
`refresh = true` it invokes `_refreshToken` exactly once and, on success,
recurses exactly once with `refresh = false` over the refreshed state; in
every other case (no cached token, `refresh = false`, no refresh token, or
a failed refresh) it returns `none`; and no call ever performs more than
one refresh attempt. -/
theorem C3_getIdToken_refresh_policy :
    ∀ (env : Env) (s : ClientState),
      (∀ refresh, (getIdToken env refresh s).2.2 ≤ 1)
      ∧ (getToken s = none → ∀ refresh, getIdToken env refresh s = (none, s, 0))
      ∧ (∀ t, getToken s = some t → isTokenValid env.now t = true →
          ∀ refresh, getIdToken env refresh s = (t.id_token, s, 0))
      ∧ (∀ t, getToken s = some t → isTokenValid env.now t = false →
          t.refresh_token = none →
          ∀ refresh, getIdToken env refresh s = (none, s, 0))
      ∧ (∀ t, getToken s = some t → isTokenValid env.now t = false →
          getIdToken env false s = (none, s, 0))
      ∧ (∀ t, getToken s = some t → isTokenValid env.now t = false →
          t.refresh_token ≠ none →
          (getIdToken env true s).2.2 = 1
          ∧ ((refreshToken t.refresh_token t.id_token env.refreshResp env.now s).1 = true →
              getIdToken env true s =
                ((getIdToken env false
                    (refreshToken t.refresh_token t.id_token env.refreshResp env.now s).2.1).1,
                  (refreshToken t.refresh_token t.id_token env.refreshResp env.now s).2.1,
                  1))
          ∧ ((refreshToken t.refresh_token t.id_token env.refreshResp env.now s).1 = false →
              getIdToken env true s =
                (none,
                  (refreshToken t.refresh_token t.id_token env.refreshResp env.now s).2.1,
                  1))) := by
  intro env s
  refine ⟨?_, ?_, ?_, ?_, ?_, ?_⟩
  · intro refresh
    cases refresh with
    | false =>
      rw [(getIdToken_false_pure env s).2]
      exact Nat.zero_le 1
    | true =>
      rw [getIdToken]
      cases h : getToken s with
      | none => simp
      | some t =>
        by_cases hv : isTokenValid env.now t
        · simp [hv]
        · by_cases hrt : t.refresh_token ≠ none
          · by_cases hr2 :
                (refreshToken t.refresh_token t.id_token env.refreshResp env.now s).1 = true <;>
              simp [hv, hrt, hr2, (getIdToken_false_pure env _).2]
          · simp [hv, hrt]
  · intro h refresh
    rw [getIdToken, h]
  · intro t h hv refresh
    rw [getIdToken, h]
    simp [hv]
  · intro t h hv hrt refresh
    rw [getIdToken, h]
    simp [hv, hrt]
  · intro t h hv
    rw [getIdToken, h]
    simp [hv]
  · intro t h hv hrt
    refine ⟨?_, ?_, ?_⟩
    · rw [getIdToken, h]
      by_cases hr :
          (refreshToken t.refresh_token t.id_token env.refreshResp env.now s).1 = true <;>
        simp [hv, hrt, hr, (getIdToken_false_pure env _).2]
    · intro hr
      rw [getIdToken, h]
      simp [hv, hrt, hr, (getIdToken_false_pure env _).1, (getIdToken_false_pure env _).2]
    · intro hr
      rw [getIdToken, h]
      simp [hv, hrt, hr]

/-- C3 witness: a concrete run where the cached token is expired but holds
a refresh token, the dispatcher grants a fresh record, and the call
recurses once with `refresh = false` over the refreshed state. -/
theorem C3_getIdToken_refresh_policy_witness :
    getIdToken grantEnv true staleState =
      ((getIdToken grantEnv false
          (refreshToken staleTok.refresh_token staleTok.id_token
            grantEnv.refreshResp grantEnv.now staleState).2.1).1,
        (refreshToken staleTok.refresh_token staleTok.id_token
          grantEnv.refreshResp grantEnv.now staleState).2.1,
        1) :=
  ((C3_getIdToken_refresh_policy grantEnv staleState).2.2.2.2.2
    staleTok rfl (by decide) (by decide)).2.1 (by decide)

end Singlebase
